import Mathlib

/-!
Shallow embedding of `src/app.py`, a salary-dashboard script: the dataframe is a
`List Record`, the sidebar multiselect widgets produce a `FilterSelection`, and
each pandas/plotly pipeline stage is a Lean function over lists.  Salaries are
embedded as exact rationals (`Rat`); the dataframe's floating-point means become
exact rational means, so "within floating tolerance" statements hold exactly.
-/

/-- One row of the CSV, with the columns the script uses
(`ano`, `senioridade`, `contrato`, `tamanho_empresa`, `cargo`, `remoto`,
`residencia_iso3`, `usd`). -/
structure Record where
  ano : Int
  senioridade : String
  contrato : String
  tamanho_empresa : String
  cargo : String
  remoto : String
  residencia_iso3 : String
  usd : Rat
deriving DecidableEq, Repr

/-- The four sidebar multiselect results (lines 21, 23, 25, 27 of `app.py`). -/
structure FilterSelection where
  anos : List Int
  senioridades : List String
  contratos : List String
  tamanhos : List String
deriving DecidableEq, Repr

/-! ### Code-point lexicographic order on strings

Python's `sorted()` on strings compares code points lexicographically.  We embed
it as an executable `Bool` comparison on the character lists. -/

/-- Lexicographic (code-point) comparison of character lists. -/
def leChars : List Char → List Char → Bool
  | [], _ => true
  | _ :: _, [] => false
  | a :: as, b :: bs => if a < b then true else if b < a then false else leChars as bs

/-- Python's string comparison: code-point lexicographic order. -/
def strLe (a b : String) : Bool := leChars a.data b.data

theorem leChars_total (as bs : List Char) : leChars as bs = true ∨ leChars bs as = true := by
  induction as generalizing bs with
  | nil => exact Or.inl rfl
  | cons a as ih =>
    cases bs with
    | nil => exact Or.inr rfl
    | cons b bs =>
      by_cases hab : a < b
      · exact Or.inl (by simp [leChars, hab])
      · by_cases hba : b < a
        · exact Or.inr (by simp [leChars, hba])
        · rcases ih bs with h | h
          · exact Or.inl (by simp [leChars, hab, hba, h])
          · exact Or.inr (by simp [leChars, hab, hba, h])

theorem leChars_trans (as bs cs : List Char) (h1 : leChars as bs = true)
    (h2 : leChars bs cs = true) : leChars as cs = true := by
  induction as generalizing bs cs with
  | nil => rfl
  | cons a as ih =>
    cases bs with
    | nil => simp [leChars] at h1
    | cons b bs =>
      cases cs with
      | nil => simp [leChars] at h2
      | cons c cs =>
        simp only [leChars] at h1 h2 ⊢
        by_cases hab : a < b
        · by_cases hbc : b < c
          · simp [lt_trans hab hbc]
          · by_cases hcb : c < b
            · simp [hbc, hcb] at h2
            · have hbc' : b = c := le_antisymm (not_lt.mp hcb) (not_lt.mp hbc)
              subst hbc'
              simp [hab]
        · by_cases hba : b < a
          · simp [hab, hba] at h1
          · have hab' : a = b := le_antisymm (not_lt.mp hba) (not_lt.mp hab)
            subst hab'
            simp only [lt_irrefl, if_false] at h1
            by_cases hac : a < c
            · simp [hac]
            · by_cases hca : c < a
              · simp [hac, hca] at h2
              · simp only [hac, hca, if_false] at h2 ⊢
                exact ih bs cs h1 h2

/-- The relation `sorted()` uses on strings. -/
def StrLeR (a b : String) : Prop := strLe a b = true

instance : DecidableRel StrLeR := fun a b => by unfold StrLeR; infer_instance

instance : IsTotal String StrLeR := ⟨fun a b => leChars_total a.data b.data⟩

instance : IsTrans String StrLeR :=
  ⟨fun a b c h1 h2 => leChars_trans a.data b.data c.data h1 h2⟩

/-- Python's `sorted()` on a list of strings. -/
def sortedStr (l : List String) : List String := List.insertionSort StrLeR l

/-- Python's `sorted()` on a list of integers. -/
def sortedInt (l : List Int) : List Int := List.insertionSort (· ≤ ·) l

/-! ### Sidebar: available values and the default ("all observed") selection -/

/-- `anos_disponiveis = sorted(df['ano'].unique())` (line 20). -/
def anos_disponiveis (df : List Record) : List Int := sortedInt (df.map (·.ano)).dedup

/-- `senioridades_disponiveis = sorted(df['senioridade'].unique())` (line 22). -/
def senioridades_disponiveis (df : List Record) : List String :=
  sortedStr (df.map (·.senioridade)).dedup

/-- `contratos_disponiveis = sorted(df['contrato'].unique())` (line 24). -/
def contratos_disponiveis (df : List Record) : List String :=
  sortedStr (df.map (·.contrato)).dedup

/-- `tamanhos_disponiveis = sorted(df['tamanho_empresa'].unique())` (line 26). -/
def tamanhos_disponiveis (df : List Record) : List String :=
  sortedStr (df.map (·.tamanho_empresa)).dedup

/-- The default sidebar state: each multiselect defaults to all observed values
(`default=..._disponiveis`, lines 21-27). -/
def selecaoPadrao (df : List Record) : FilterSelection :=
  { anos := anos_disponiveis df
    senioridades := senioridades_disponiveis df
    contratos := contratos_disponiveis df
    tamanhos := tamanhos_disponiveis df }

/-! ### Filter engine -/

/-- The predicate of the `df.query` string (lines 35-38): membership in each of
the four selected sets, conjoined. -/
def passaFiltro (sel : FilterSelection) (r : Record) : Bool :=
  sel.anos.contains r.ano && sel.senioridades.contains r.senioridade &&
    sel.contratos.contains r.contrato && sel.tamanhos.contains r.tamanho_empresa

/-- `df_filtrado = df.query(...)` (lines 35-38): the rows passing all four
membership tests, in their original order. -/
def df_filtrado (df : List Record) (sel : FilterSelection) : List Record :=
  df.filter (passaFiltro sel)

theorem passaFiltro_iff (sel : FilterSelection) (r : Record) :
    passaFiltro sel r = true ↔
      r.ano ∈ sel.anos ∧ r.senioridade ∈ sel.senioridades ∧
        r.contrato ∈ sel.contratos ∧ r.tamanho_empresa ∈ sel.tamanhos := by
  simp [passaFiltro, List.contains, and_assoc]

/-- **C1.** `filter(records, selection)` is a subsequence of the input in the
original relative order, containing exactly (membership and multiplicity) the
records whose four dimension values each belong to the corresponding selection
set. -/
theorem C1_filtro_correto (df : List Record) (sel : FilterSelection) :
    (df_filtrado df sel).Sublist df ∧
      (∀ r, r ∈ df_filtrado df sel ↔
        r ∈ df ∧ r.ano ∈ sel.anos ∧ r.senioridade ∈ sel.senioridades ∧
          r.contrato ∈ sel.contratos ∧ r.tamanho_empresa ∈ sel.tamanhos) ∧
      (∀ r, (df_filtrado df sel).count r =
        if passaFiltro sel r then df.count r else 0) := by
  refine ⟨List.filter_sublist df, fun r => ?_, fun r => ?_⟩
  · rw [df_filtrado, List.mem_filter, passaFiltro_iff]
  · by_cases h : passaFiltro sel r
    · rw [if_pos h]
      exact List.count_filter h
    · rw [if_neg h]
      refine List.count_eq_zero.mpr (fun hmem => h ?_)
      exact (List.mem_filter.mp hmem).2

/-- **C5.** Filtering with the default selection (every dimension set to all of
its observed values) returns the input list unchanged. -/
theorem C5_selecao_total_identidade (df : List Record) :
    df_filtrado df (selecaoPadrao df) = df := by
  refine List.filter_eq_self.mpr (fun r hr => ?_)
  have hmem : ∀ {β : Type} [DecidableEq β] (x : β) (l : List β),
      x ∈ l → l.contains x = true := by
    intro β _ x l h
    simpa [List.contains] using h
  have h1 : r.ano ∈ anos_disponiveis df := by
    simp only [anos_disponiveis, sortedInt]
    rw [(List.perm_insertionSort _ _).mem_iff, List.mem_dedup]
    exact List.mem_map_of_mem _ hr
  have h2 : r.senioridade ∈ senioridades_disponiveis df := by
    simp only [senioridades_disponiveis, sortedStr]
    rw [(List.perm_insertionSort _ _).mem_iff, List.mem_dedup]
    exact List.mem_map_of_mem _ hr
  have h3 : r.contrato ∈ contratos_disponiveis df := by
    simp only [contratos_disponiveis, sortedStr]
    rw [(List.perm_insertionSort _ _).mem_iff, List.mem_dedup]
    exact List.mem_map_of_mem _ hr
  have h4 : r.tamanho_empresa ∈ tamanhos_disponiveis df := by
    simp only [tamanhos_disponiveis, sortedStr]
    rw [(List.perm_insertionSort _ _).mem_iff, List.mem_dedup]
    exact List.mem_map_of_mem _ hr
  exact (passaFiltro_iff (selecaoPadrao df) r).mpr ⟨h1, h2, h3, h4⟩

/-- **C6.** If any one of the four selection sets is empty, the filtered view is
empty: the empty dimension is not skipped. -/
theorem C6_dimensao_vazia (df : List Record) (sel : FilterSelection)
    (h : sel.anos = [] ∨ sel.senioridades = [] ∨ sel.contratos = [] ∨ sel.tamanhos = []) :
    df_filtrado df sel = [] := by
  refine List.filter_eq_nil_iff.mpr (fun r _ => ?_)
  intro hpass
  rcases passaFiltro_iff sel r |>.mp hpass with ⟨h1, h2, h3, h4⟩
  rcases h with h | h | h | h
  · rw [h] at h1; exact List.not_mem_nil _ h1
  · rw [h] at h2; exact List.not_mem_nil _ h2
  · rw [h] at h3; exact List.not_mem_nil _ h3
  · rw [h] at h4; exact List.not_mem_nil _ h4

/-- A concrete record used by witnesses. -/
def recExemplo : Record :=
  ⟨2023, "senior", "ft", "m", "Data Scientist", "remote", "BRA", 100000⟩

/-- A concrete selection with an empty year set. -/
def selAnoVazio : FilterSelection := ⟨[], ["senior"], ["ft"], ["m"]⟩

/-- Witness for C6: a one-record list and a selection whose year set is empty. -/
theorem C6_dimensao_vazia_witness :
    df_filtrado [recExemplo] selAnoVazio = [] :=
  C6_dimensao_vazia _ _ (Or.inl rfl)

/-! ### Aggregator: Top-N roles by mean salary (lines 78-79)

`df_filtrado.groupby('cargo')['usd'].mean().reset_index()` emits one row per
distinct `cargo`, in sorted key order (pandas `groupby` sorts group keys), with
the mean of `usd` over the group.  `nlargest(top_n_cargos, 'usd')` keeps the
`n` rows of largest `usd`, preferring earlier rows on ties (`keep='first'`),
and `sort_values('usd', ascending=True)` reorders them ascending by mean. -/

/-- Mean of the `usd` column of a list of rows (`['usd'].mean()`). -/
def mediaUsd (l : List Record) : Rat := (l.map (·.usd)).sum / l.length

/-- The distinct `cargo` values in sorted order (pandas `groupby` key order). -/
def cargosAgrupados (dfF : List Record) : List String := sortedStr (dfF.map (·.cargo)).dedup

/-- `salario_cargo = df_filtrado.groupby('cargo')['usd'].mean().reset_index()`
(line 78): one `(cargo, mean usd)` row per distinct role, keys sorted. -/
def salario_cargo (dfF : List Record) : List (String × Rat) :=
  (cargosAgrupados dfF).map (fun c => (c, mediaUsd (dfF.filter (fun r => r.cargo == c))))

/-- Ascending comparison of rows by their `usd` component. -/
def leUsd (a b : String × Rat) : Prop := a.2 ≤ b.2

/-- Descending comparison of rows by their `usd` component. -/
def geUsd (a b : String × Rat) : Prop := b.2 ≤ a.2

instance : DecidableRel leUsd := fun a b => by unfold leUsd; infer_instance

instance : DecidableRel geUsd := fun a b => by unfold geUsd; infer_instance

instance : IsTotal (String × Rat) leUsd := ⟨fun a b => le_total a.2 b.2⟩

instance : IsTrans (String × Rat) leUsd := ⟨fun _ _ _ h1 h2 => le_trans h1 h2⟩

instance : IsTotal (String × Rat) geUsd := ⟨fun a b => le_total b.2 a.2⟩

instance : IsTrans (String × Rat) geUsd := ⟨fun _ _ _ h1 h2 => le_trans h2 h1⟩

/-- `.nlargest(n, 'usd')` with the default `keep='first'`: the `n` rows of
largest `usd`; on ties, rows earlier in the input win.  Equivalently, a stable
descending sort followed by `take n`. -/
def nlargestUsd (n : Nat) (rows : List (String × Rat)) : List (String × Rat) :=
  (List.insertionSort geUsd rows).take n

/-- `top_cargos = salario_cargo.nlargest(top_n_cargos, 'usd').sort_values('usd',
ascending=True)` (line 79). -/
def top_cargos (dfF : List Record) (n : Nat) : List (String × Rat) :=
  List.insertionSort leUsd (nlargestUsd n (salario_cargo dfF))

/-- **C2.** Top-N by role: at most `n` rows, sorted ascending by group mean,
and every grouped role left out has mean at most the mean of every selected
role (hence at most the minimum selected mean). -/
theorem C2_top_cargos (dfF : List Record) (n : Nat) (hne : dfF ≠ []) :
    (top_cargos dfF n).length ≤ n ∧
      (top_cargos dfF n).Sorted leUsd ∧
      ∀ b ∈ salario_cargo dfF, b ∉ top_cargos dfF n →
        ∀ a ∈ top_cargos dfF n, b.2 ≤ a.2 := by
  refine ⟨?_, List.sorted_insertionSort leUsd _, ?_⟩
  · rw [top_cargos, List.length_insertionSort, nlargestUsd, List.length_take]
    exact min_le_left _ _
  · intro b hb hnb a ha
    have hpermS : List.Perm (List.insertionSort geUsd (salario_cargo dfF)) (salario_cargo dfF) :=
      List.perm_insertionSort _ _
    have hpermT : List.Perm (top_cargos dfF n) (nlargestUsd n (salario_cargo dfF)) :=
      List.perm_insertionSort _ _
    have ha' : a ∈ (List.insertionSort geUsd (salario_cargo dfF)).take n :=
      hpermT.mem_iff.mp ha
    have hbS : b ∈ List.insertionSort geUsd (salario_cargo dfF) := hpermS.mem_iff.mpr hb
    have hnb' : b ∉ (List.insertionSort geUsd (salario_cargo dfF)).take n :=
      fun hmem => hnb (hpermT.mem_iff.mpr hmem)
    have hbsplit : b ∈ (List.insertionSort geUsd (salario_cargo dfF)).take n ++
        (List.insertionSort geUsd (salario_cargo dfF)).drop n := by
      rw [List.take_append_drop]
      exact hbS
    have hbdrop : b ∈ (List.insertionSort geUsd (salario_cargo dfF)).drop n := by
      rcases List.mem_append.mp hbsplit with h | h
      · exact absurd h hnb'
      · exact h
    have hsorted : (List.insertionSort geUsd (salario_cargo dfF)).Sorted geUsd :=
      List.sorted_insertionSort geUsd _
    have hsplit := hsorted
    rw [← List.take_append_drop n (List.insertionSort geUsd (salario_cargo dfF))] at hsplit
    exact (List.pairwise_append.mp hsplit).2.2 a ha' b hbdrop

/-- Witness for C2 at a concrete two-record view with `n = 1`. -/
theorem C2_top_cargos_witness :
    ([recExemplo] : List Record) ≠ [] ∧
      ((top_cargos [recExemplo] 1).length ≤ 1 ∧
        (top_cargos [recExemplo] 1).Sorted leUsd ∧
        ∀ b ∈ salario_cargo [recExemplo], b ∉ top_cargos [recExemplo] 1 →
          ∀ a ∈ top_cargos [recExemplo] 1, b.2 ≤ a.2) :=
  ⟨by simp, C2_top_cargos [recExemplo] 1 (by simp)⟩

/-! ### Stability of the tie-break in `nlargest`

`nlargest(..., keep='first')` prefers rows appearing earlier in `salario_cargo`
on equal means, and `salario_cargo`'s rows are in sorted key order (pandas
`groupby` sorts group keys).  So ties at the selection boundary are broken
alphabetically by role title, not by encounter order in the filtered view. -/

theorem pairwise_orderedInsert_stable {α : Type} (r : α → α → Prop) [DecidableRel r]
    (q : α → α → Prop) (x : α) (l : List α)
    (h1 : l.Pairwise (fun a b => r a b ∧ r b a → q a b))
    (h2 : ∀ b ∈ l, r x b ∧ r b x → q x b) :
    (List.orderedInsert r x l).Pairwise (fun a b => r a b ∧ r b a → q a b) := by
  induction l with
  | nil => simp
  | cons b t ih =>
    rw [List.orderedInsert]
    by_cases hrb : r x b
    · rw [if_pos hrb]
      exact List.pairwise_cons.mpr ⟨h2, h1⟩
    · rw [if_neg hrb]
      refine List.pairwise_cons.mpr ⟨fun c hc => ?_, ?_⟩
      · rcases (List.mem_orderedInsert r).mp hc with hcx | hct
        · subst hcx
          exact fun hco => absurd hco.2 hrb
        · exact (List.pairwise_cons.mp h1).1 c hct
      · exact ih (List.pairwise_cons.mp h1).2 (fun c hc hco => h2 c (List.mem_cons_of_mem b hc) hco)

/-- Insertion sort is stable: pairs the sort relation cannot distinguish keep
any pairwise property they had in the input order. -/
theorem pairwise_insertionSort_stable {α : Type} (r : α → α → Prop) [DecidableRel r]
    (q : α → α → Prop) (l : List α) (h : l.Pairwise q) :
    (List.insertionSort r l).Pairwise (fun a b => r a b ∧ r b a → q a b) := by
  induction l with
  | nil => simp
  | cons x xs ih =>
    rw [List.insertionSort]
    refine pairwise_orderedInsert_stable r q x _ (ih (List.pairwise_cons.mp h).2) ?_
    intro b hb _
    exact (List.pairwise_cons.mp h).1 b ((List.mem_insertionSort r).mp hb)

/-- The rows of `salario_cargo` are in sorted key order. -/
theorem salario_cargo_pairwise_chave (dfF : List Record) :
    (salario_cargo dfF).Pairwise (fun a b => StrLeR a.1 b.1) := by
  rw [salario_cargo, List.pairwise_map]
  exact List.sorted_insertionSort StrLeR _

/-- A two-record view whose first record's role is `"B"` and second is `"A"`,
with equal salaries: the two group means tie. -/
def dfEmpate : List Record :=
  [⟨2023, "senior", "ft", "m", "B", "remote", "BRA", 100⟩,
   ⟨2023, "senior", "ft", "m", "A", "remote", "BRA", 100⟩]

/-- **C7 counterexample.** In `dfEmpate` the role `"B"` appears first in the
filtered view and ties with `"A"` on mean salary, yet Top-1 selects `"A"`: the
tie is not broken by encounter order. -/
theorem C7_counterexample :
    dfEmpate.map (·.cargo) = ["B", "A"] ∧
      mediaUsd (dfEmpate.filter (fun r => r.cargo == "A")) =
        mediaUsd (dfEmpate.filter (fun r => r.cargo == "B")) ∧
      (top_cargos dfEmpate 1).map (·.1) = ["A"] := by
  refine ⟨rfl, by simp [dfEmpate, mediaUsd], ?_⟩
  simp [top_cargos, nlargestUsd, salario_cargo, cargosAgrupados, sortedStr, dfEmpate,
    List.insertionSort, List.orderedInsert, StrLeR, strLe, leChars, geUsd, leUsd, mediaUsd]

/-- **C7 (amended).** When two role groups tie on mean salary at the selection
boundary, the selected one is the one earlier in the grouped table, i.e. the
alphabetically smaller role title (pandas sorts group keys); encounter order in
the filtered view plays no part. -/
theorem C7_empate_alfabetico (dfF : List Record) (n : Nat) (a b : String × Rat)
    (ha : a ∈ top_cargos dfF n) (hb : b ∈ salario_cargo dfF)
    (hnb : b ∉ top_cargos dfF n) (hemp : a.2 = b.2) : StrLeR a.1 b.1 := by
  have hpermT : List.Perm (top_cargos dfF n) (nlargestUsd n (salario_cargo dfF)) :=
    List.perm_insertionSort _ _
  have hpermS : List.Perm (List.insertionSort geUsd (salario_cargo dfF)) (salario_cargo dfF) :=
    List.perm_insertionSort _ _
  have ha' : a ∈ (List.insertionSort geUsd (salario_cargo dfF)).take n :=
    hpermT.mem_iff.mp ha
  have hbS : b ∈ List.insertionSort geUsd (salario_cargo dfF) := hpermS.mem_iff.mpr hb
  have hnb' : b ∉ (List.insertionSort geUsd (salario_cargo dfF)).take n :=
    fun hmem => hnb (hpermT.mem_iff.mpr hmem)
  have hbsplit : b ∈ (List.insertionSort geUsd (salario_cargo dfF)).take n ++
      (List.insertionSort geUsd (salario_cargo dfF)).drop n := by
    rw [List.take_append_drop]
    exact hbS
  have hbdrop : b ∈ (List.insertionSort geUsd (salario_cargo dfF)).drop n := by
    rcases List.mem_append.mp hbsplit with h | h
    · exact absurd h hnb'
    · exact h
  have hstable := pairwise_insertionSort_stable geUsd (fun a b => StrLeR a.1 b.1)
    (salario_cargo dfF) (salario_cargo_pairwise_chave dfF)
  rw [← List.take_append_drop n (List.insertionSort geUsd (salario_cargo dfF))] at hstable
  exact (List.pairwise_append.mp hstable).2.2 a ha' b hbdrop ⟨le_of_eq hemp.symm, le_of_eq hemp⟩

/-- Witness for the amended C7, at the tied two-record view with `n = 1`. -/
theorem C7_empate_alfabetico_witness :
    ("A", (100 : Rat)) ∈ top_cargos dfEmpate 1 ∧
      ("B", (100 : Rat)) ∈ salario_cargo dfEmpate ∧
      ("B", (100 : Rat)) ∉ top_cargos dfEmpate 1 ∧
      StrLeR "A" "B" := by
  have h1 : ("A", (100 : Rat)) ∈ top_cargos dfEmpate 1 := by
    simp [top_cargos, nlargestUsd, salario_cargo, cargosAgrupados, sortedStr, dfEmpate,
      List.insertionSort, List.orderedInsert, StrLeR, strLe, leChars, geUsd, leUsd, mediaUsd]
  have h2 : ("B", (100 : Rat)) ∈ salario_cargo dfEmpate := by
    simp [salario_cargo, cargosAgrupados, sortedStr, dfEmpate,
      List.insertionSort, List.orderedInsert, StrLeR, strLe, leChars, mediaUsd]
  have h3 : ("B", (100 : Rat)) ∉ top_cargos dfEmpate 1 := by
    simp [top_cargos, nlargestUsd, salario_cargo, cargosAgrupados, sortedStr, dfEmpate,
      List.insertionSort, List.orderedInsert, StrLeR, strLe, leChars, geUsd, leUsd, mediaUsd]
  exact ⟨h1, h2, h3, C7_empate_alfabetico dfEmpate 1 ("A", 100) ("B", 100) h1 h2 h3 rfl⟩

/-! ### Summary metrics (lines 59-65) -/

/-- `df_filtrado['cargo'].value_counts().idxmax()`: the most frequent role. -/
def cargo_mais_frequente (dfF : List Record) : String :=
  (((dfF.map (·.cargo)).dedup).argmax (fun c => dfF.countP (fun r => r.cargo == c))).getD ""

/-- The four scalar metrics shown on lines 68-71. -/
structure Metricas where
  salario_medio : Rat
  salario_maximo : Rat
  total_registros : Nat
  cargo_mais_frequente : String
deriving DecidableEq, Repr

/-- Lines 59-65: the metrics over the filtered view, with the
`0, 0, 0, ""` defaults when it is empty. -/
def metricas (dfF : List Record) : Metricas :=
  if dfF.isEmpty then ⟨0, 0, 0, ""⟩
  else ⟨mediaUsd dfF, ((dfF.map (·.usd)).max?).getD 0, dfF.length, cargo_mais_frequente dfF⟩

/-! ### Remaining chart data -/

/-- Descending comparison of `(kind, count)` rows by count. -/
def geContagem (a b : String × Nat) : Prop := b.2 ≤ a.2

instance : DecidableRel geContagem := fun a b => by unfold geContagem; infer_instance

/-- `remoto_contagem = df_filtrado['remoto'].value_counts()` (lines 107-108):
one `(work kind, count)` row per distinct `remoto` value, most frequent first. -/
def remoto_contagem (dfF : List Record) : List (String × Nat) :=
  List.insertionSort geContagem
    (((dfF.map (·.remoto)).dedup).map (fun t => (t, dfF.countP (fun r => r.remoto == t))))

/-- `df_ds = df_filtrado[df_filtrado['cargo'] == 'Data Scientist']` (line 121). -/
def df_ds (dfF : List Record) : List Record :=
  dfF.filter (fun r => r.cargo == "Data Scientist")

/-- A row of the animated-bar frame (line 126 plus the `cor` column of
line 140). -/
structure AnimRow where
  ano : Int
  residencia_iso3 : String
  usd : Rat
  cor : Rat
deriving DecidableEq, Repr

/-- The distinct `(ano, residencia_iso3)` pairs present (the group keys of
`df_ds.groupby(['ano', 'residencia_iso3'])`, line 126). -/
def chavesAnoPais (ds : List Record) : List (Int × String) :=
  (ds.map (fun r => (r.ano, r.residencia_iso3))).dedup

/-- The rows of one `(ano, residencia_iso3)` group. -/
def grupoAnoPais (ds : List Record) (k : Int × String) : List Record :=
  ds.filter (fun r => r.ano == k.1 && r.residencia_iso3 == k.2)

/-- `media_global = df_ds.groupby('ano')['usd'].mean()` (line 139), as a
function from the year. -/
def media_global (ds : List Record) (a : Int) : Rat :=
  mediaUsd (ds.filter (fun r => r.ano == a))

/-- Descending comparison of animated-bar rows by mean salary. -/
def geUsdAnim (p q : AnimRow) : Prop := q.usd ≤ p.usd

instance : DecidableRel geUsdAnim := fun p q => by unfold geUsdAnim; infer_instance

/-- One grouped row: the key, the group's mean `usd`, and `cor`, the group
mean minus the year's global mean over `df_ds` (line 140:
`row['usd'] - media_global[row['ano']]`). -/
def linhaAnim (ds : List Record) (k : Int × String) : AnimRow :=
  ⟨k.1, k.2, mediaUsd (grupoAnoPais ds k),
    mediaUsd (grupoAnoPais ds k) - media_global ds k.1⟩

/-- Lines 126-140: group `df_ds` by `(ano, residencia_iso3)` with the mean of
`usd`, order by `usd` descending, and attach `cor` (the `cor` column is added
after the sort in the script; the rows are the same). -/
def df_anim (ds : List Record) : List AnimRow :=
  List.insertionSort geUsdAnim ((chavesAnoPais ds).map (linhaAnim ds))

/-! ### Country enrichment (lines 130-134) -/

/-- A row of `pycountry`'s reference table: 3-letter code, display name,
2-letter code. -/
structure CountryInfo where
  alpha_3 : String
  name : String
  alpha_2 : String
deriving DecidableEq, Repr

/-- `obter_pais_info` (lines 130-134): look the 3-letter code up in the
reference table; on a hit return `(name, alpha_2)`, otherwise fall back to
`(code, code[:2])`. -/
def obter_pais_info (table : List CountryInfo) (code : String) : String × String :=
  match table.find? (fun c => c.alpha_3 == code) with
  | some c => (c.name, c.alpha_2)
  | none => (code, code.take 2)

/-! ### Sliders (lines 31-32) -/

/-- Model of `st.sidebar.slider(label, min_value, max_value, value, step)`: the
widget returns `value` (the default) when untouched, and otherwise a
user-chosen position, which the UI constrains to `[min_value, max_value]`. -/
def slider (min_value max_value value : Nat) (escolha : Option Nat) : Nat :=
  match escolha with
  | none => value
  | some c => min max_value (max min_value c)

/-- `top_n_cargos = st.sidebar.slider(..., min_value=5, max_value=20,
value=10, step=1)` (line 31). -/
def top_n_cargos (escolha : Option Nat) : Nat := slider 5 20 10 escolha

/-! ### The rendered page -/

/-- What the script puts on the page: the metric row, the four optional chart
sections (`none` when the guarding `if` skips them), and the capped table. -/
structure RenderOutput where
  metricas : Metricas
  fig_top : Option (List (String × Rat))
  fig_hist : Option (List Rat × Nat)
  fig_remoto : Option (List (String × Nat))
  fig_bar_anim : Option (List AnimRow)
  tabela : List Record
deriving Repr

/-- The whole recomputation cycle (lines 35-170): filter, metrics, the three
general charts guarded by `if not df_filtrado.empty` (line 76), the animated
bar additionally guarded by `if not df_ds.empty` (line 124), and the first
1000 rows of the table (line 170). -/
def render (df : List Record) (sel : FilterSelection) (top_n hist_bins : Nat) : RenderOutput :=
  let dfF := df_filtrado df sel
  { metricas := metricas dfF
    fig_top := if dfF.isEmpty then none else some (top_cargos dfF top_n)
    fig_hist := if dfF.isEmpty then none else some (dfF.map (·.usd), hist_bins)
    fig_remoto := if dfF.isEmpty then none else some (remoto_contagem dfF)
    fig_bar_anim :=
      if dfF.isEmpty then none
      else if (df_ds dfF).isEmpty then none
      else some (df_anim (df_ds dfF))
    tabela := dfF.take 1000 }

/-- **C4.** An empty filtered view yields the `0, 0, 0, ""` metric defaults and
none of the four chart sections. -/
theorem C4_vista_vazia (df : List Record) (sel : FilterSelection) (top_n hist_bins : Nat)
    (h : df_filtrado df sel = []) :
    (render df sel top_n hist_bins).metricas = ⟨0, 0, 0, ""⟩ ∧
      (render df sel top_n hist_bins).fig_top = none ∧
      (render df sel top_n hist_bins).fig_hist = none ∧
      (render df sel top_n hist_bins).fig_remoto = none ∧
      (render df sel top_n hist_bins).fig_bar_anim = none := by
  simp [render, metricas, h]

/-- Witness for C4: the empty dataframe filters to the empty view. -/
theorem C4_vista_vazia_witness :
    df_filtrado [] (selecaoPadrao []) = [] ∧
      ((render [] (selecaoPadrao []) 10 30).metricas = ⟨0, 0, 0, ""⟩ ∧
        (render [] (selecaoPadrao []) 10 30).fig_top = none ∧
        (render [] (selecaoPadrao []) 10 30).fig_hist = none ∧
        (render [] (selecaoPadrao []) 10 30).fig_remoto = none ∧
        (render [] (selecaoPadrao []) 10 30).fig_bar_anim = none) :=
  ⟨rfl, C4_vista_vazia [] (selecaoPadrao []) 10 30 rfl⟩

/-- **C10.** A non-empty filtered view with no `'Data Scientist'` record skips
only the animated-bar section; the metrics, the three general charts, and the
table are produced from the filtered view as usual. -/
theorem C10_sem_cientistas (df : List Record) (sel : FilterSelection) (top_n hist_bins : Nat)
    (h1 : df_filtrado df sel ≠ []) (h2 : df_ds (df_filtrado df sel) = []) :
    (render df sel top_n hist_bins).fig_bar_anim = none ∧
      (render df sel top_n hist_bins).metricas = metricas (df_filtrado df sel) ∧
      (render df sel top_n hist_bins).fig_top = some (top_cargos (df_filtrado df sel) top_n) ∧
      (render df sel top_n hist_bins).fig_hist =
        some ((df_filtrado df sel).map (·.usd), hist_bins) ∧
      (render df sel top_n hist_bins).fig_remoto = some (remoto_contagem (df_filtrado df sel)) ∧
      (render df sel top_n hist_bins).tabela = (df_filtrado df sel).take 1000 := by
  simp [render, List.isEmpty_iff, h1, h2]

/-- A record whose role is not `'Data Scientist'`. -/
def recAnalista : Record := ⟨2024, "pleno", "ft", "l", "Data Analyst", "hybrid", "USA", 90000⟩

/-- Witness for C10: a one-analyst view, non-empty but without data
scientists. -/
theorem C10_sem_cientistas_witness :
    df_filtrado [recAnalista] (selecaoPadrao [recAnalista]) ≠ [] ∧
      df_ds (df_filtrado [recAnalista] (selecaoPadrao [recAnalista])) = [] ∧
      ((render [recAnalista] (selecaoPadrao [recAnalista]) 10 30).fig_bar_anim = none ∧
        (render [recAnalista] (selecaoPadrao [recAnalista]) 10 30).metricas =
          metricas (df_filtrado [recAnalista] (selecaoPadrao [recAnalista])) ∧
        (render [recAnalista] (selecaoPadrao [recAnalista]) 10 30).fig_top =
          some (top_cargos (df_filtrado [recAnalista] (selecaoPadrao [recAnalista])) 10) ∧
        (render [recAnalista] (selecaoPadrao [recAnalista]) 10 30).fig_hist =
          some ((df_filtrado [recAnalista] (selecaoPadrao [recAnalista])).map (·.usd), 30) ∧
        (render [recAnalista] (selecaoPadrao [recAnalista]) 10 30).fig_remoto =
          some (remoto_contagem (df_filtrado [recAnalista] (selecaoPadrao [recAnalista]))) ∧
        (render [recAnalista] (selecaoPadrao [recAnalista]) 10 30).tabela =
          (df_filtrado [recAnalista] (selecaoPadrao [recAnalista])).take 1000) :=
  ⟨by decide, by decide, C10_sem_cientistas [recAnalista] _ 10 30 (by decide) (by decide)⟩

/-- **C9.** Whatever the user does with the slider of line 31, the Top-N count
is an integer between 5 and 20; untouched, it is the default 10. -/
theorem C9_limites_top_n (escolha : Option Nat) :
    5 ≤ top_n_cargos escolha ∧ top_n_cargos escolha ≤ 20 := by
  cases escolha with
  | none => exact ⟨by norm_num [top_n_cargos, slider], by norm_num [top_n_cargos, slider]⟩
  | some c => exact ⟨by simp [top_n_cargos, slider], by simp [top_n_cargos, slider]⟩

/-- **C8 counterexample.** On a code absent from the reference table the lookup
does not return the raw code as the abbreviation: for `"XXX"` it returns
`("XXX", "XX")`, truncating the abbreviation to the first two characters. -/
theorem C8_counterexample :
    obter_pais_info [] "XXX" ≠ ("XXX", "XXX") ∧
      obter_pais_info [] "XXX" = ("XXX", "XX") := by
  refine ⟨?_, rfl⟩
  intro h
  exact absurd (congrArg Prod.snd h) (by decide)

/-- **C8 (amended).** For every code absent from the reference table, the
lookup returns the raw code as the display name and the code's first two
characters as the abbreviation. -/
theorem C8_codigo_desconhecido (table : List CountryInfo) (code : String)
    (h : table.find? (fun c => c.alpha_3 == code) = none) :
    obter_pais_info table code = (code, code.take 2) := by
  simp [obter_pais_info, h]

/-- Witness for the amended C8 at the empty table and the code `"XXX"`. -/
theorem C8_codigo_desconhecido_witness :
    (List.find? (fun c => c.alpha_3 == "XXX") [] = (none : Option CountryInfo)) ∧
      obter_pais_info [] "XXX" = ("XXX", "XXX".take 2) :=
  ⟨rfl, C8_codigo_desconhecido [] "XXX" rfl⟩

/-! ### C3: the `cor` column and its per-year weighted sum -/

theorem linhaAnim_cor (ds : List Record) (k : Int × String) :
    (linhaAnim ds k).cor = mediaUsd (grupoAnoPais ds k) - media_global ds k.1 := rfl

theorem linhaAnim_chave (ds : List Record) (k : Int × String) :
    ((linhaAnim ds k).ano, (linhaAnim ds k).residencia_iso3) = k := rfl

theorem sum_map_add_rat {κ : Type} (l : List κ) (f g : κ → Rat) :
    (l.map fun k => f k + g k).sum = (l.map f).sum + (l.map g).sum := by
  induction l with
  | nil => simp
  | cons x t ih =>
    simp only [List.map_cons, List.sum_cons, ih]
    ring

theorem sum_map_sub_rat {κ : Type} (l : List κ) (f g : κ → Rat) :
    (l.map fun k => f k - g k).sum = (l.map f).sum - (l.map g).sum := by
  induction l with
  | nil => simp
  | cons x t ih =>
    simp only [List.map_cons, List.sum_cons, ih]
    ring

theorem sum_map_um {κ : Type} (l : List κ) :
    (l.map fun _ => (1 : Rat)).sum = l.length := by
  induction l with
  | nil => simp
  | cons x t ih =>
    simp only [List.map_cons, List.sum_cons, ih, List.length_cons]
    push_cast
    ring

theorem sum_map_ite_chave (ks : List (Int × String)) (hnd : ks.Nodup)
    (k0 : Int × String) (hk : k0 ∈ ks) (c : Rat) :
    (ks.map (fun k => if k0 = k then c else 0)).sum = c := by
  induction ks with
  | nil => cases hk
  | cons k t ih =>
    rcases List.mem_cons.mp hk with hk0 | hkt
    · subst hk0
      have ht : k0 ∉ t := (List.nodup_cons.mp hnd).1
      have hz : (t.map (fun k => if k0 = k then c else 0)).sum = 0 := by
        refine List.sum_eq_zero (fun x hx => ?_)
        rcases List.mem_map.mp hx with ⟨k', hk', hval⟩
        have hne' : k0 ≠ k' := fun h => ht (h.symm ▸ hk')
        rw [← hval, if_neg hne']
      simp [hz]
    · have hne : k0 ≠ k := fun h => (List.nodup_cons.mp hnd).1 (h ▸ hkt)
      simp [if_neg hne, ih (List.nodup_cons.mp hnd).2 hkt]

theorem chave_beq_iff (r : Record) (k : Int × String) :
    ((r.ano == k.1 && r.residencia_iso3 == k.2) = true) ↔
      (r.ano, r.residencia_iso3) = k := by
  cases k with
  | mk a s => simp [Prod.ext_iff]

/-- Grouping partitions the rows: summing a quantity cell by cell over a family
of keys that is duplicate-free and covers every row gives the total. -/
theorem sum_por_chave (l : List Record) (ks : List (Int × String)) (hnd : ks.Nodup)
    (hcov : ∀ r ∈ l, (r.ano, r.residencia_iso3) ∈ ks) (f : Record → Rat) :
    (ks.map (fun k =>
      ((l.filter (fun r => r.ano == k.1 && r.residencia_iso3 == k.2)).map f).sum)).sum
      = (l.map f).sum := by
  induction l with
  | nil =>
    refine List.sum_eq_zero (fun x hx => ?_)
    rcases List.mem_map.mp hx with ⟨k, _, hval⟩
    simp at hval
    exact hval.symm
  | cons r t ih =>
    have hcovt : ∀ x ∈ t, (x.ano, x.residencia_iso3) ∈ ks :=
      fun x hx => hcov x (List.mem_cons_of_mem r hx)
    have hkr : (r.ano, r.residencia_iso3) ∈ ks := hcov r (List.mem_cons_self r t)
    have hstep : ∀ k ∈ ks,
        ((List.filter (fun x => x.ano == k.1 && x.residencia_iso3 == k.2) (r :: t)).map f).sum
          = (if (r.ano, r.residencia_iso3) = k then f r else 0)
            + ((List.filter (fun x => x.ano == k.1 && x.residencia_iso3 == k.2) t).map f).sum := by
      intro k _
      rw [List.filter_cons]
      by_cases h : (r.ano, r.residencia_iso3) = k
      · rw [if_pos ((chave_beq_iff r k).mpr h), if_pos h, List.map_cons, List.sum_cons]
      · have hb : ¬ ((r.ano == k.1 && r.residencia_iso3 == k.2) = true) :=
          fun hc => h ((chave_beq_iff r k).mp hc)
        rw [if_neg hb, if_neg h, zero_add]
    calc (ks.map (fun k =>
            ((List.filter (fun x => x.ano == k.1 && x.residencia_iso3 == k.2) (r :: t)).map
              f).sum)).sum
        = (ks.map (fun k =>
            (if (r.ano, r.residencia_iso3) = k then f r else 0)
              + ((List.filter (fun x => x.ano == k.1 && x.residencia_iso3 == k.2) t).map
                  f).sum)).sum := congrArg List.sum (List.map_congr_left hstep)
      _ = (ks.map (fun k => if (r.ano, r.residencia_iso3) = k then f r else 0)).sum
            + (ks.map (fun k =>
                ((List.filter (fun x => x.ano == k.1 && x.residencia_iso3 == k.2) t).map
                  f).sum)).sum := sum_map_add_rat ks _ _
      _ = f r + (t.map f).sum := by rw [sum_map_ite_chave ks hnd _ hkr, ih hcovt]
      _ = ((r :: t).map f).sum := by rw [List.map_cons, List.sum_cons]

/-- Every present key's group is non-empty. -/
theorem grupoAnoPais_ne_nil (ds : List Record) (k : Int × String)
    (hk : k ∈ chavesAnoPais ds) : grupoAnoPais ds k ≠ [] := by
  rw [chavesAnoPais, List.mem_dedup] at hk
  rcases List.mem_map.mp hk with ⟨r, hr, hkey⟩
  rw [grupoAnoPais]
  exact List.ne_nil_of_mem (List.mem_filter.mpr ⟨hr, (chave_beq_iff r k).mpr hkey⟩)

/-- Restricting first to a key's own year does not change the key's group. -/
theorem filtroAno_grupo (ds : List Record) (a : Int) (k : Int × String) (hk : k.1 = a) :
    (ds.filter (fun r => r.ano == a)).filter
        (fun r => r.ano == k.1 && r.residencia_iso3 == k.2) = grupoAnoPais ds k := by
  subst hk
  rw [grupoAnoPais, List.filter_filter]
  refine List.filter_congr (fun r _ => ?_)
  by_cases h1 : (r.ano == k.1) = true <;> by_cases h2 : (r.residencia_iso3 == k.2) = true <;>
    simp [h1, h2]

theorem chavesAno_nodup (ds : List Record) (a : Int) :
    ((chavesAnoPais ds).filter (fun k => k.1 == a)).Nodup :=
  (List.nodup_dedup _).filter _

theorem chavesAno_cobre (ds : List Record) (a : Int) :
    ∀ r ∈ ds.filter (fun r => r.ano == a),
      (r.ano, r.residencia_iso3) ∈ (chavesAnoPais ds).filter (fun k => k.1 == a) := by
  intro r hr
  rcases List.mem_filter.mp hr with ⟨hrds, hra⟩
  refine List.mem_filter.mpr ⟨?_, hra⟩
  rw [chavesAnoPais, List.mem_dedup]
  exact List.mem_map_of_mem _ hrds

/-- Within one year, the `cor` values weighted by group sizes cancel: each
group contributes its salary total minus the year mean times its size, and the
groups of a year partition the year's rows. -/
theorem soma_cor_ano (ds : List Record) (a : Int) :
    (((df_anim ds).filter (fun row => row.ano == a)).map
      (fun row => row.cor *
        ((grupoAnoPais ds (row.ano, row.residencia_iso3)).length : Rat))).sum = 0 := by
  have hperm : List.Perm
      ((df_anim ds).filter (fun row => row.ano == a))
      (((chavesAnoPais ds).map (linhaAnim ds)).filter (fun row => row.ano == a)) :=
    (List.perm_insertionSort geUsdAnim _).filter _
  have hfe : List.filter ((fun row : AnimRow => row.ano == a) ∘ linhaAnim ds)
      (chavesAnoPais ds) = List.filter (fun k => k.1 == a) (chavesAnoPais ds) :=
    List.filter_congr (fun k _ => rfl)
  rw [(hperm.map _).sum_eq, List.filter_map, hfe, List.map_map]
  have hnd : ((chavesAnoPais ds).filter (fun k => k.1 == a)).Nodup := chavesAno_nodup ds a
  have hterm : ∀ k ∈ (chavesAnoPais ds).filter (fun k => k.1 == a),
      ((fun row : AnimRow => row.cor *
          ((grupoAnoPais ds (row.ano, row.residencia_iso3)).length : Rat)) ∘ linhaAnim ds) k
        = ((grupoAnoPais ds k).map (·.usd)).sum
            - media_global ds a * ((grupoAnoPais ds k).length : Rat) := by
    intro k hk
    rcases List.mem_filter.mp hk with ⟨hkc, hka⟩
    have hka' : k.1 = a := by simpa using hka
    have hne : grupoAnoPais ds k ≠ [] := grupoAnoPais_ne_nil ds k hkc
    have hlen : ((grupoAnoPais ds k).length : Rat) ≠ 0 :=
      Nat.cast_ne_zero.mpr (fun h => hne (List.length_eq_zero.mp h))
    calc ((fun row : AnimRow => row.cor *
            ((grupoAnoPais ds (row.ano, row.residencia_iso3)).length : Rat)) ∘ linhaAnim ds) k
        = (linhaAnim ds k).cor *
            ((grupoAnoPais ds ((linhaAnim ds k).ano, (linhaAnim ds k).residencia_iso3)).length :
              Rat) := rfl
      _ = (mediaUsd (grupoAnoPais ds k) - media_global ds k.1) *
            ((grupoAnoPais ds k).length : Rat) := by rw [linhaAnim_cor, linhaAnim_chave]
      _ = ((grupoAnoPais ds k).map (·.usd)).sum
            - media_global ds a * ((grupoAnoPais ds k).length : Rat) := by
          rw [hka', sub_mul, mediaUsd, div_mul_cancel₀ _ hlen]
  rw [List.map_congr_left hterm, sum_map_sub_rat, List.sum_map_mul_left]
  have hsum : (((chavesAnoPais ds).filter (fun k => k.1 == a)).map
      (fun k => ((grupoAnoPais ds k).map (·.usd)).sum)).sum
      = ((ds.filter (fun r => r.ano == a)).map (·.usd)).sum := by
    calc (((chavesAnoPais ds).filter (fun k => k.1 == a)).map
            (fun k => ((grupoAnoPais ds k).map (·.usd)).sum)).sum
        = (((chavesAnoPais ds).filter (fun k => k.1 == a)).map
            (fun k => (((ds.filter (fun r => r.ano == a)).filter
              (fun r => r.ano == k.1 && r.residencia_iso3 == k.2)).map (·.usd)).sum)).sum := by
          refine congrArg List.sum (List.map_congr_left (fun k hk => ?_))
          rw [filtroAno_grupo ds a k (by simpa using (List.mem_filter.mp hk).2)]
      _ = ((ds.filter (fun r => r.ano == a)).map (·.usd)).sum :=
          sum_por_chave _ _ hnd (chavesAno_cobre ds a) _
  have hlen : (((chavesAnoPais ds).filter (fun k => k.1 == a)).map
      (fun k => ((grupoAnoPais ds k).length : Rat))).sum
      = ((ds.filter (fun r => r.ano == a)).length : Rat) := by
    calc (((chavesAnoPais ds).filter (fun k => k.1 == a)).map
            (fun k => ((grupoAnoPais ds k).length : Rat))).sum
        = (((chavesAnoPais ds).filter (fun k => k.1 == a)).map
            (fun k => ((grupoAnoPais ds k).map (fun _ => (1 : Rat))).sum)).sum := by
          refine congrArg List.sum (List.map_congr_left (fun k _ => ?_))
          rw [sum_map_um]
      _ = (((chavesAnoPais ds).filter (fun k => k.1 == a)).map
            (fun k => (((ds.filter (fun r => r.ano == a)).filter
              (fun r => r.ano == k.1 && r.residencia_iso3 == k.2)).map
                (fun _ => (1 : Rat))).sum)).sum := by
          refine congrArg List.sum (List.map_congr_left (fun k hk => ?_))
          rw [filtroAno_grupo ds a k (by simpa using (List.mem_filter.mp hk).2)]
      _ = ((ds.filter (fun r => r.ano == a)).map (fun _ => (1 : Rat))).sum :=
          sum_por_chave _ _ hnd (chavesAno_cobre ds a) _
      _ = ((ds.filter (fun r => r.ano == a)).length : Rat) := sum_map_um _
  rw [hsum, hlen]
  by_cases hY : ds.filter (fun r => r.ano == a) = []
  · rw [hY]
    simp
  · have hN : ((ds.filter (fun r => r.ano == a)).length : Rat) ≠ 0 :=
      Nat.cast_ne_zero.mpr (fun h => hY (List.length_eq_zero.mp h))
    rw [media_global, mediaUsd, div_mul_cancel₀ _ hN, sub_self]

/-- **C3.** Every animated-bar row's `cor` equals its group's mean `usd` minus
the global mean of its year over the role-restricted subset, and within each
year the `cor` values weighted by group sizes sum to zero. -/
theorem C3_cor_divergente (dfF : List Record) :
    (∀ row ∈ df_anim (df_ds dfF),
        row.cor = mediaUsd (grupoAnoPais (df_ds dfF) (row.ano, row.residencia_iso3))
          - media_global (df_ds dfF) row.ano) ∧
      (∀ a : Int,
        (((df_anim (df_ds dfF)).filter (fun row => row.ano == a)).map
          (fun row => row.cor *
            ((grupoAnoPais (df_ds dfF) (row.ano, row.residencia_iso3)).length : Rat))).sum
          = 0) := by
  constructor
  · intro row hrow
    rcases List.mem_map.mp ((List.perm_insertionSort geUsdAnim _).mem_iff.mp hrow) with
      ⟨k, _, rfl⟩
    rfl
  · exact fun a => soma_cor_ano (df_ds dfF) a
